import Mathlib

/-!
# VaultScribe core — shallow embedding

Shallow embedding of the VaultScribe zero-knowledge recording/encryption
pipeline, translated from the repository source:

* `Enc` — the Electron `EncryptionService`
  (src/unnamed/part_007): passphrase lifecycle, AES-256-GCM with PBKDF2
  key derivation, file layout `[salt(32)][iv(16)][authTag(16)][ciphertext]`.
* `Py` — the Python `EncryptionService` and the `/api/transcribe`
  pipeline (src/unnamed/part_001): Fernet encryption keyed by a salt
  derived from the session id, and the decrypt/transcribe/cleanup flow.
* `Cap` — the `AudioCapture` recording controller
  (src/desktop/src/main/services/transcription.js).
* `SM` — the `SessionManager` session store
  (src/desktop/src/main/services/session-manager.js).

Modelling conventions:

* Byte strings are `List Nat` (each entry one byte; `Nat.xor` on values
  below 256 stays below 256).
* Randomness (`crypto.randomBytes`) is passed in explicitly as a tape
  `Nat → Nat`; position `i` of the tape is the i-th random byte the
  operation draws.  A function that ignores its tape draws no randomness.
* The cryptographic primitives of the Node `crypto` module are external
  library code, modelled ideally: PBKDF2 key derivation is an opaque
  injective function of (passphrase, salt) — `DerivedKey` keeps both —
  and the GCM authentication tag is an opaque value determined by
  (key, iv, ciphertext) — `AuthTag`.  Tag verification is equality of
  these values, which is GCM tag checking under the standard assumption
  that tags neither collide across keys nor can be forged.  The GCM
  ciphertext itself is the plaintext XORed with a keystream that is a
  deterministic function of key and IV, which preserves the two facts the
  claims rely on: the ciphertext has the exact length of the plaintext
  (GCM is a stream mode, no padding) and decryption with the same key and
  IV inverts encryption.
* JavaScript exceptions become `Except` errors carrying the thrown
  message; the spec taxonomy (`ValidationError`, `NotUnlocked`,
  `AuthenticationFailed`, `StateError`, `AudioSourceError`) names the
  constructors.
-/

namespace VaultScribe

/-- Byte strings: one `Nat` per byte. -/
abbrev Bytes := List Nat

/-- A simple rolling byte hash, used to give the modelled keystream and
hash functions concrete executable values.  Only determinism and output
range matter to the claims, never the particular values. -/
def byteHash (seed : Nat) (l : List Nat) : Nat :=
  l.foldl (fun a b => (a * 131 + b) % 256) (seed % 256)

/-- The bytes of a string (code points, as Node treats passphrases). -/
def strBytes (s : String) : Bytes :=
  s.toList.map Char.toNat

/-- Model of `crypto.randomBytes(n)`: `n` bytes read from the explicit
random tape starting at offset `off`.  Always returns exactly `n` bytes,
as `randomBytes` does. -/
def randomBytes (tape : Nat → Nat) (off n : Nat) : Bytes :=
  (List.range n).map (fun i => tape (off + i) % 256)

/-- Ideal model of the PBKDF2 derived key
(`crypto.pbkdf2(passphrase, salt, 100000, 32, sha256)`, part_007
lines 90-104): an opaque value determined by the passphrase and the
salt, with the service constants recorded. -/
structure DerivedKey where
  passphrase : String
  salt : Bytes
  iterations : Nat
  keyLength : Nat
deriving DecidableEq, Repr

/-- `deriveKey` of part_007 (lines 90-104): `iterations = 100000`,
`keyLength = 32`, digest SHA-256. -/
def deriveKey (passphrase : String) (salt : Bytes) : DerivedKey :=
  ⟨passphrase, salt, 100000, 32⟩

/-- The GCM keystream byte at position `i`, a deterministic function of
key and IV (model of the AES-CTR keystream inside AES-256-GCM). -/
def prf (key : DerivedKey) (iv : Bytes) (i : Nat) : Nat :=
  byteHash i (strBytes key.passphrase ++ key.salt ++ iv ++ [i])

/-- The first `n` keystream bytes for a key and IV. -/
def keystream (key : DerivedKey) (iv : Bytes) (n : Nat) : Bytes :=
  (List.range n).map (prf key iv)

/-- GCM encryption body (`cipher.update(plaintext)` + `cipher.final()`):
plaintext XOR keystream; same length as the plaintext, no padding. -/
def gcmEncrypt (key : DerivedKey) (iv : Bytes) (pt : Bytes) : Bytes :=
  List.zipWith Nat.xor pt (keystream key iv pt.length)

/-- GCM decryption body (`decipher.update(encrypted)` +
`decipher.final()` after the tag has been verified): ciphertext XOR the
same keystream. -/
def gcmDecrypt (key : DerivedKey) (iv : Bytes) (ct : Bytes) : Bytes :=
  List.zipWith Nat.xor ct (keystream key iv ct.length)

/-- Ideal model of the GCM authentication tag
(`cipher.getAuthTag()`): an opaque value determined by the key, the IV
and the ciphertext.  Two tags are equal exactly when those three
components agree — the no-forgery idealisation of GCM. -/
structure AuthTag where
  key : DerivedKey
  iv : Bytes
  ct : Bytes
deriving DecidableEq, Repr

/-- The tag produced by `cipher.getAuthTag()` for a given encryption. -/
def gcmTag (key : DerivedKey) (iv : Bytes) (ct : Bytes) : AuthTag :=
  ⟨key, iv, ct⟩

/-- The 16-byte wire form of an authentication tag, as written into the
file layout `[salt][iv][authTag][ciphertext]`.  Always 16 bytes. -/
def tagBytes (t : AuthTag) : Bytes :=
  (List.range 16).map
    (fun i => byteHash i (strBytes t.key.passphrase ++ t.key.salt ++ t.iv ++ t.ct))

namespace Enc

/-- Error taxonomy of the Electron `EncryptionService`; constructors
carry the literal thrown message. -/
inductive EncError where
  | validationError (msg : String)
  | notUnlocked (msg : String)
  | authenticationFailed (msg : String)
deriving DecidableEq, Repr

/-- The in-memory state of the Electron `EncryptionService`
(part_007 lines 19-37): the passphrase, `none` until set. -/
structure EncryptionService where
  passphrase : Option String
deriving DecidableEq, Repr

/-- A freshly constructed service: `this.passphrase = null`. -/
def EncryptionService.fresh : EncryptionService := ⟨none⟩

/-- `this.saltLength = 32` (part_007 line 30). -/
def saltLength : Nat := 32

/-- `this.ivLength = 16` (part_007 line 29). -/
def ivLength : Nat := 16

/-- `setPassphrase(passphrase)` (part_007 lines 61-72): rejects a missing
passphrase or one shorter than 8 characters, otherwise stores it in
memory.  (`!passphrase` on the empty string is subsumed by the length
check.) -/
def setPassphrase (_svc : EncryptionService) (p : String) :
    Except EncError EncryptionService :=
  if p.length < 8 then
    .error (.validationError "Passphrase must be at least 8 characters")
  else
    .ok ⟨some p⟩

/-- `clearPassphrase()` (part_007 lines 77-81). -/
def clearPassphrase (_svc : EncryptionService) : EncryptionService := ⟨none⟩

/-- The record returned by `encryptData` (part_007 lines 283-288). -/
structure EncryptedData where
  encrypted : Bytes
  salt : Bytes
  iv : Bytes
  authTag : AuthTag
deriving DecidableEq, Repr

/-- `crypto.randomBytes(this.saltLength)`: the fresh 32-byte salt an
encryption operation draws from its random tape (part_007 lines 127 and
268). -/
def freshSalt (tape : Nat → Nat) : Bytes :=
  randomBytes tape 0 saltLength

/-- `crypto.randomBytes(this.ivLength)`: the fresh 16-byte IV an
encryption operation draws from its random tape, after the salt
(part_007 lines 128 and 269). -/
def freshIV (tape : Nat → Nat) : Bytes :=
  randomBytes tape saltLength ivLength

/-- `encryptData(data)` (part_007 lines 260-289): requires the
passphrase, draws a fresh 32-byte salt and 16-byte IV from the random
tape, derives the key, encrypts, and returns ciphertext, salt, IV and
tag. -/
def encryptData (svc : EncryptionService) (data : Bytes) (tape : Nat → Nat) :
    Except EncError EncryptedData :=
  match svc.passphrase with
  | none => .error (.notUnlocked "Encryption passphrase not set")
  | some pass =>
    let salt := freshSalt tape
    let iv := freshIV tape
    let key := deriveKey pass salt
    let encrypted := gcmEncrypt key iv data
    .ok ⟨encrypted, salt, iv, gcmTag key iv encrypted⟩

/-- `decryptData(encrypted, salt, iv, authTag)` (part_007 lines
300-318): requires the passphrase, re-derives the key from the supplied
salt, and lets `decipher.final()` verify the tag — on mismatch Node
throws `Unsupported state or unable to authenticate data` and no
plaintext is produced. -/
def decryptData (svc : EncryptionService) (encrypted salt iv : Bytes)
    (authTag : AuthTag) : Except EncError Bytes :=
  match svc.passphrase with
  | none => .error (.notUnlocked "Encryption passphrase not set")
  | some pass =>
    let key := deriveKey pass salt
    if authTag = gcmTag key iv encrypted then
      .ok (gcmDecrypt key iv encrypted)
    else
      .error (.authenticationFailed "Unsupported state or unable to authenticate data")

/-- `encryptFile` (part_007 lines 113-176), at the byte level: the input
is the plaintext read from `filePath` and the result is the artifact
written to `outputPath`, laid out `[salt][iv][authTag][encrypted]`
(lines 152-161). -/
def encryptFile (svc : EncryptionService) (plaintext : Bytes) (tape : Nat → Nat) :
    Except EncError Bytes :=
  match svc.passphrase with
  | none =>
    .error (.notUnlocked "Encryption passphrase not set. Call setPassphrase() first.")
  | some pass =>
    let salt := freshSalt tape
    let iv := freshIV tape
    let key := deriveKey pass salt
    let encrypted := gcmEncrypt key iv plaintext
    let authTag := gcmTag key iv encrypted
    .ok (salt ++ iv ++ tagBytes authTag ++ encrypted)

/-- The ciphertext produced by one `encryptFile` operation. -/
def fileCipher (pass : String) (plaintext : Bytes) (tape : Nat → Nat) : Bytes :=
  gcmEncrypt (deriveKey pass (freshSalt tape)) (freshIV tape) plaintext

/-- The 16-byte authentication tag written by one `encryptFile`
operation. -/
def fileTag (pass : String) (plaintext : Bytes) (tape : Nat → Nat) : Bytes :=
  tagBytes (gcmTag (deriveKey pass (freshSalt tape)) (freshIV tape)
    (fileCipher pass plaintext tape))

/-- The artifact written by one `encryptFile` operation:
`[salt][iv][authTag][encrypted]` (part_007 lines 152-161). -/
def fileArtifact (pass : String) (plaintext : Bytes) (tape : Nat → Nat) : Bytes :=
  freshSalt tape ++ freshIV tape ++ fileTag pass plaintext tape ++
    fileCipher pass plaintext tape

/-- `data.slice(a, b)` on a byte buffer. -/
def sliceBytes (d : Bytes) (a b : Nat) : Bytes :=
  (d.drop a).take (b - a)

/-- The metadata extraction of `decryptFile` (part_007 lines 198-205):
bytes 0-31 are the salt, 32-47 the IV, 48-63 the auth tag, and the
remainder the ciphertext. -/
def decryptFileParse (encryptedData : Bytes) :
    Bytes × Bytes × Bytes × Bytes :=
  (sliceBytes encryptedData 0 saltLength,
   sliceBytes encryptedData saltLength (saltLength + ivLength),
   sliceBytes encryptedData (saltLength + ivLength) (saltLength + ivLength + 16),
   encryptedData.drop (saltLength + ivLength + 16))

/-- `decryptFile` (part_007 lines 185-252), at the byte level: parses the
artifact at the fixed offsets, re-derives the key, verifies the tag, and
only then emits plaintext; the auth failure from `decipher.final()` is
rewrapped as `Decryption failed: Invalid passphrase or corrupted file`
(lines 246-248). -/
def decryptFile (svc : EncryptionService) (encryptedData : Bytes) :
    Except EncError Bytes :=
  match svc.passphrase with
  | none =>
    .error (.notUnlocked "Encryption passphrase not set. Call setPassphrase() first.")
  | some pass =>
    let parts := decryptFileParse encryptedData
    let salt := parts.1
    let iv := parts.2.1
    let authTagB := parts.2.2.1
    let encrypted := parts.2.2.2
    let key := deriveKey pass salt
    if authTagB = tagBytes (gcmTag key iv encrypted) then
      .ok (gcmDecrypt key iv encrypted)
    else
      .error (.authenticationFailed "Decryption failed: Invalid passphrase or corrupted file")

/-- The spec expression `decrypt(encrypt(p, k), k)` over `encryptData`
and `decryptData`, with the passphrase `k` set. -/
def encryptThenDecrypt (k : String) (p : Bytes) (tape : Nat → Nat) :
    Except EncError Bytes :=
  match encryptData ⟨some k⟩ p tape with
  | .error e => .error e
  | .ok r => decryptData ⟨some k⟩ r.encrypted r.salt r.iv r.authTag

end Enc

namespace Py

/-- Stand-in for `hashlib.sha256(...).digest()`: a deterministic 32-byte
digest of the input string.  Only determinism and the 32-byte length
matter to the claims about it, never the particular values. -/
def sha256Digest (s : String) : Bytes :=
  (List.range 32).map (fun i => byteHash i (strBytes s))

/-- The salt computed inside `generate_session_key` (part_001 lines
72-75): `sha256(f"{session_id}:{matter_code}").digest()` — a
deterministic function of the session id and matter code. -/
def sessionSalt (sessionId matterCode : String) : Bytes :=
  sha256Digest (sessionId ++ ":" ++ matterCode)

/-- `generate_session_key(session_id, matter_code)` (part_001 lines
56-87): PBKDF2 over the master key with the session-derived salt. -/
def generate_session_key (masterKey sessionId matterCode : String) : DerivedKey :=
  deriveKey masterKey (sessionSalt sessionId matterCode)

/-- The key-derivation salt used by one `encrypt_file` operation
(part_001 lines 89-128).  The operation has a random tape available —
every encryption operation in this model does — but the code derives the
salt entirely from the session id and matter code and draws nothing from
the tape. -/
def encrypt_file_salt (sessionId matterCode : String) (_tape : Nat → Nat) : Bytes :=
  sessionSalt sessionId matterCode

/-- `Path.with_suffix('')`: drop the final dot-suffix of a path, if any
(modelled for paths with a normal stem). -/
def pyWithSuffixEmpty (p : String) : String :=
  let rev := p.toList.reverse
  match rev.dropWhile (fun c => c ≠ '.') with
  | [] => p
  | _ :: stemRev => String.mk stemRev.reverse

/-- `Path.suffix`: the final dot-suffix of a path, `""` if none. -/
def pySuffix (p : String) : String :=
  let rev := p.toList.reverse
  match rev.dropWhile (fun c => c ≠ '.') with
  | [] => ""
  | _ => String.mk ('.' :: (rev.takeWhile (fun c => c ≠ '.')).reverse)

/-- The default output path of `decrypt_file` (part_001 lines 163-167):
strip one suffix, and one more if an `.encrypted` suffix remains. -/
def decryptOutputPath (encryptedPath : String) : String :=
  let o := pyWithSuffixEmpty encryptedPath
  if pySuffix o = ".encrypted" then pyWithSuffixEmpty o else o

/-- The storage/disk state the pipeline manipulates: the set of paths
currently present, as a list. -/
structure PyFS where
  files : List String
deriving DecidableEq, Repr

/-- `path.unlink()`. -/
def pyUnlink (fs : PyFS) (p : String) : PyFS :=
  ⟨fs.files.filter (fun q => q ≠ p)⟩

/-- Writing a file at `p` (`open(p, 'wb')` + write). -/
def pyWrite (fs : PyFS) (p : String) : PyFS :=
  ⟨p :: fs.files⟩

/-- Which steps of one `/api/transcribe` run succeed.  Each flag stands
for one statement of the endpoint body that can raise: the Fernet
decryption inside `decrypt_file`, the Whisper call
`transcribe_file`, and the transcript encryption `encrypt_string`. -/
structure TranscribeFlags where
  decryptOk : Bool
  transcribeOk : Bool
  encryptOk : Bool
deriving DecidableEq, Repr

/-- `decrypt_file` (part_001 lines 130-173) as a filesystem transformer:
on success the decrypted plaintext is written at the derived output path
and that path is returned; on a bad key or corrupted file it raises
before writing anything. -/
def decrypt_file (fs : PyFS) (encryptedPath : String) (ok : Bool) :
    Except String (PyFS × String) :=
  if ok then
    .ok (pyWrite fs (decryptOutputPath encryptedPath), decryptOutputPath encryptedPath)
  else
    .error "Decryption failed - invalid key or corrupted file"

/-- `transcribe_audio` — the `/api/transcribe` endpoint (part_001 lines
284-327): decrypt the stored artifact to a transient plaintext file,
then inside `try ... finally decrypted_path.unlink()` transcribe it and
encrypt the transcript; any exception is caught by the outer handler
after the `finally` has removed the plaintext.  Returns the HTTP
outcome and the final filesystem. -/
def transcribe_audio (fs : PyFS) (encryptedPath : String) (fl : TranscribeFlags) :
    Except String Unit × PyFS :=
  match decrypt_file fs encryptedPath fl.decryptOk with
  | .error e => (.error e, fs)
  | .ok (fs1, decryptedPath) =>
    if fl.transcribeOk then
      if fl.encryptOk then
        (.ok (), pyUnlink fs1 decryptedPath)
      else
        (.error "Transcription failed", pyUnlink fs1 decryptedPath)
    else
      (.error "Transcription failed", pyUnlink fs1 decryptedPath)

end Py

namespace Cap

/-- `this.recordingState` of `AudioCapture`
(transcription.js line 183): `'idle' | 'recording' | 'paused'`. -/
inductive RecState where
  | idle
  | recording
  | paused
deriving DecidableEq, Repr

/-- Errors thrown by `AudioCapture`; constructors follow the spec
taxonomy and carry the literal thrown message. -/
inductive CapError where
  | stateError (msg : String)
  | audioSourceError (msg : String)
deriving DecidableEq, Repr

/-- The mutable fields of `AudioCapture` the state machine and the
duration accounting read and write (transcription.js lines 180-199).
Timestamps are `Int` milliseconds (`Date.now()`). -/
structure AudioCapture where
  recordingState : RecState
  startTime : Option Int
  pausedDuration : Int
  lastPauseTime : Option Int
deriving DecidableEq, Repr

/-- A freshly constructed capture service. -/
def AudioCapture.fresh : AudioCapture :=
  ⟨.idle, none, 0, none⟩

/-- `cleanup()` (transcription.js lines 550-569): reset every recording
field to its idle value. -/
def cleanup (_c : AudioCapture) : AudioCapture :=
  ⟨.idle, none, 0, none⟩

/-- `startRecording(options)` (transcription.js lines 212-278), at the
state-machine level.  `streamOk` is whether `getAudioStream()` yields a
usable audio track; `now` is `Date.now()`.  Throws
`Recording already in progress` before touching any state unless the
state is idle; on a stream failure runs `cleanup()` and rethrows; on
success begins the capture: state `recording`, `startTime = now`,
`pausedDuration = 0`.  Returns the new state and the result (`startTime`
on success). -/
def startRecording (c : AudioCapture) (streamOk : Bool) (now : Int) :
    AudioCapture × Except CapError Int :=
  if c.recordingState ≠ .idle then
    (c, .error (.stateError "Recording already in progress"))
  else if streamOk then
    ({ recordingState := .recording
       startTime := some now
       pausedDuration := 0
       lastPauseTime := c.lastPauseTime }, .ok now)
  else
    (cleanup c, .error (.audioSourceError "No audio sources available"))

/-- `pauseRecording()` (transcription.js lines 456-471): valid only from
`recording`; records the pause instant. -/
def pauseRecording (c : AudioCapture) (now : Int) :
    AudioCapture × Except CapError Unit :=
  if c.recordingState ≠ .recording then
    (c, .error (.stateError "No active recording to pause"))
  else
    ({ c with recordingState := .paused, lastPauseTime := some now }, .ok ())

/-- `resumeRecording()` (transcription.js lines 476-496): valid only from
`paused`; accumulates the paused interval into `pausedDuration`. -/
def resumeRecording (c : AudioCapture) (now : Int) :
    AudioCapture × Except CapError Unit :=
  if c.recordingState ≠ .paused then
    (c, .error (.stateError "Recording is not paused"))
  else
    match c.lastPauseTime with
    | some l =>
      ({ c with recordingState := .recording
                pausedDuration := c.pausedDuration + (now - l)
                lastPauseTime := none }, .ok ())
    | none =>
      ({ c with recordingState := .recording }, .ok ())

/-- The record returned by `getStatus()`. -/
structure CaptureStatus where
  state : RecState
  duration : Int
  fileSize : Int
deriving DecidableEq, Repr

/-- `getStatus()` (transcription.js lines 526-545): while not idle,
`duration = now - startTime - currentPausedDuration`, where a live pause
contributes `now - lastPauseTime` on top of the accumulated
`pausedDuration`; the file size estimate of 16KB per second is modelled
with exact integer arithmetic. -/
def getStatus (c : AudioCapture) (now : Int) : CaptureStatus :=
  match c.startTime with
  | some st =>
    if c.recordingState ≠ .idle then
      let currentPausedDuration :=
        match c.recordingState, c.lastPauseTime with
        | .paused, some l => c.pausedDuration + (now - l)
        | _, _ => c.pausedDuration
      let d := now - st - currentPausedDuration
      ⟨c.recordingState, d, d * 16 * 1024 / 1000⟩
    else
      ⟨c.recordingState, 0, 0⟩
  | none => ⟨c.recordingState, 0, 0⟩

end Cap

namespace SM

/-- A stored session record (session-manager.js lines 44-78), restricted
to the fields the claims touch.  `status` is a plain string, exactly as
in the JavaScript (`'created'`, `'recording'`, `'recorded'`,
`'transcribing'`, `'completed'`, ...); timestamps are opaque `Nat`
values standing for the ISO strings. -/
structure Session where
  sessionId : String
  matterCode : String
  clientCode : String
  description : String
  audioPath : Option String
  transcriptPath : Option String
  duration : Int
  fileSize : Int
  status : String
  createdAt : Nat
  updatedAt : Nat
deriving DecidableEq, Repr

/-- An update patch: the fields present in the `updates` object passed to
`updateSession`.  `none` means the field is absent from the patch. -/
structure SessionPatch where
  status : Option String
  audioPath : Option (Option String)
  transcriptPath : Option (Option String)
  duration : Option Int
  fileSize : Option Int
deriving DecidableEq, Repr

/-- A patch that only changes `status`. -/
def statusPatch (s : String) : SessionPatch :=
  ⟨some s, none, none, none, none⟩

/-- `Object.assign(session, updates)`: fields present in the patch
overwrite the session, every other field is kept. -/
def applyPatch (s : Session) (p : SessionPatch) : Session :=
  { s with
    status := p.status.getD s.status
    audioPath := p.audioPath.getD s.audioPath
    transcriptPath := p.transcriptPath.getD s.transcriptPath
    duration := p.duration.getD s.duration
    fileSize := p.fileSize.getD s.fileSize }

/-- The session table `this.sessions`, keyed by session id. -/
abbrev Sessions := List (String × Session)

/-- `updateSession(sessionId, updates)` (session-manager.js lines
148-165): throws `Session not found` when the id is unknown; otherwise
merges the patch into the record unconditionally — no status-transition
check of any kind — stamps `updatedAt`, and saves.  Returns the new
table and the updated session. -/
def updateSession (sessions : Sessions) (sessionId : String)
    (updates : SessionPatch) (now : Nat) :
    Except String (Sessions × Session) :=
  match sessions.lookup sessionId with
  | none => .error ("Session not found: " ++ sessionId)
  | some s =>
    let s' := { applyPatch s updates with updatedAt := now }
    .ok (sessions.map (fun kv => if kv.1 = sessionId then (sessionId, s') else kv), s')

/-- The result object of `deleteSession`. -/
structure DeleteResult where
  success : Bool
  sessionId : String
  filesDeleted : Bool
deriving DecidableEq, Repr

/-- Remove a possibly-absent path from the disk file list
(`if (path && fs.existsSync(path)) fs.unlinkSync(path)`). -/
def unlinkOpt (files : List String) (p : Option String) : List String :=
  match p with
  | none => files
  | some q => files.filter (fun r => r ≠ q)

/-- `deleteSession(sessionId, deleteFiles)` (session-manager.js lines
174-212): throws `Session not found` when the id is unknown; otherwise
— with no check of the session status whatsoever — optionally unlinks
the audio and transcript files, removes the record from the table, and
saves.  `files` is the disk state. -/
def deleteSession (sessions : Sessions) (files : List String)
    (sessionId : String) (deleteFiles : Bool) :
    Except String (Sessions × List String × DeleteResult) :=
  match sessions.lookup sessionId with
  | none => .error ("Session not found: " ++ sessionId)
  | some s =>
    let files' :=
      if deleteFiles then unlinkOpt (unlinkOpt files s.audioPath) s.transcriptPath
      else files
    .ok (sessions.filter (fun kv => kv.1 ≠ sessionId), files',
         ⟨true, sessionId, deleteFiles⟩)

end SM

/-! ## Concrete instances used to witness the theorems -/

/-- The encryption result of `encryptData` under passphrase
`password1` on the plaintext `[1, 2, 3]` with the all-zero random
tape. -/
def encDataEx : Enc.EncryptedData :=
  match Enc.encryptData ⟨some "password1"⟩ [1, 2, 3] (fun _ => 0) with
  | .ok r => r
  | .error _ => ⟨[], [], [], gcmTag (deriveKey "" []) [] []⟩

/-- A capture service currently recording. -/
def capRecordingEx : Cap.AudioCapture :=
  ⟨.recording, some 0, 2, none⟩

/-- A capture service currently paused (paused at time 3 after starting
at time 0 with 2ms already accumulated in `pausedDuration`). -/
def capPausedEx : Cap.AudioCapture :=
  ⟨.paused, some 0, 2, some 3⟩

/-- A stored session whose status is `completed`. -/
def completedSessionEx : SM.Session :=
  { sessionId := "s1", matterCode := "2024-001", clientCode := ""
    description := "", audioPath := none, transcriptPath := none
    duration := 5000, fileSize := 80000, status := "completed"
    createdAt := 1, updatedAt := 1 }

/-- A stored session whose status is `recording`, with an audio file on
disk. -/
def recordingSessionEx : SM.Session :=
  { sessionId := "r1", matterCode := "2024-002", clientCode := ""
    description := "", audioPath := some "rec.webm", transcriptPath := none
    duration := 0, fileSize := 0, status := "recording"
    createdAt := 1, updatedAt := 1 }

/-! ## Supporting lemmas -/

theorem length_randomBytes (tape : Nat → Nat) (off n : Nat) :
    (randomBytes tape off n).length = n := by
  simp [randomBytes]

theorem length_keystream (key : DerivedKey) (iv : Bytes) (n : Nat) :
    (keystream key iv n).length = n := by
  simp [keystream]

theorem length_tagBytes (t : AuthTag) : (tagBytes t).length = 16 := by
  simp [tagBytes]

theorem length_gcmEncrypt (key : DerivedKey) (iv : Bytes) (pt : Bytes) :
    (gcmEncrypt key iv pt).length = pt.length := by
  simp [gcmEncrypt, List.length_zipWith, length_keystream]

theorem zipWith_xor_cancel (pt : List Nat) :
    ∀ ks : List Nat, pt.length ≤ ks.length →
      List.zipWith Nat.xor (List.zipWith Nat.xor pt ks) ks = pt := by
  induction pt with
  | nil => intro ks _; simp
  | cons a pt ih =>
    intro ks h
    cases ks with
    | nil => simp at h
    | cons b ks =>
      simp only [List.zipWith_cons_cons]
      have hx : Nat.xor (Nat.xor a b) b = a := Nat.xor_cancel_right b a
      rw [hx, ih ks (by simpa using h)]

theorem gcmDecrypt_gcmEncrypt (key : DerivedKey) (iv : Bytes) (pt : Bytes) :
    gcmDecrypt key iv (gcmEncrypt key iv pt) = pt := by
  unfold gcmDecrypt
  rw [length_gcmEncrypt]
  exact zipWith_xor_cancel pt _ (by rw [length_keystream])

theorem decryptFileParse_append (salt iv tag ct : Bytes)
    (hs : salt.length = 32) (hi : iv.length = 16) (ht : tag.length = 16) :
    Enc.decryptFileParse (salt ++ iv ++ tag ++ ct) = (salt, iv, tag, ct) := by
  have d32 : (salt ++ (iv ++ (tag ++ ct))).drop 32 = iv ++ (tag ++ ct) :=
    List.drop_left' hs
  have d16 : (iv ++ (tag ++ ct)).drop 16 = tag ++ ct := List.drop_left' hi
  have dt16 : (tag ++ ct).drop 16 = ct := List.drop_left' ht
  unfold Enc.decryptFileParse Enc.sliceBytes Enc.saltLength Enc.ivLength
  simp only [Prod.mk.injEq]
  norm_num
  refine ⟨List.take_left' hs, ?_, ?_, ?_⟩
  · rw [d32]
    exact List.take_left' hi
  · rw [show (48 : Nat) = 32 + 16 from rfl, ← List.drop_drop, d32, d16]
    exact List.take_left' ht
  · rw [show (64 : Nat) = 48 + 16 from rfl, ← List.drop_drop,
      show (48 : Nat) = 32 + 16 from rfl, ← List.drop_drop, d32, d16, dt16]

theorem decryptData_some (pass : String) (encrypted salt iv : Bytes)
    (tag : AuthTag) :
    Enc.decryptData ⟨some pass⟩ encrypted salt iv tag =
      if tag = gcmTag (deriveKey pass salt) iv encrypted then
        Except.ok (gcmDecrypt (deriveKey pass salt) iv encrypted)
      else
        Except.error (Enc.EncError.authenticationFailed
          "Unsupported state or unable to authenticate data") := rfl

theorem decryptData_auth_fail (pass : String) (encrypted salt iv : Bytes)
    (tag : AuthTag) (h : tag ≠ gcmTag (deriveKey pass salt) iv encrypted) :
    Enc.decryptData ⟨some pass⟩ encrypted salt iv tag =
      Except.error (Enc.EncError.authenticationFailed
        "Unsupported state or unable to authenticate data") := by
  rw [decryptData_some, if_neg h]

/-! ## Claim theorems -/

/-- C1: for every byte string `p`, every passphrase `k` with
`k.length ≥ 8` and every random tape, setting passphrase `k` succeeds
with the service remembering `k`, and decrypting the artifact produced
by `encryptData` under the same in-memory passphrase returns exactly
`p`. -/
theorem encrypt_decrypt_roundtrip (p : Bytes) (k : String) (tape : Nat → Nat)
    (hk : 8 ≤ k.length) :
    Enc.setPassphrase Enc.EncryptionService.fresh k = Except.ok ⟨some k⟩ ∧
    Enc.encryptThenDecrypt k p tape = Except.ok p := by
  constructor
  · unfold Enc.setPassphrase
    rw [if_neg (by omega)]
  · unfold Enc.encryptThenDecrypt Enc.encryptData Enc.decryptData
    simp [gcmDecrypt_gcmEncrypt]

/-- Witness for C1 at passphrase `password`, plaintext `[104, 105]` and
the constant random tape. -/
theorem encrypt_decrypt_roundtrip_witness :
    Enc.setPassphrase Enc.EncryptionService.fresh "password" =
      Except.ok ⟨some "password"⟩ ∧
    Enc.encryptThenDecrypt "password" [104, 105] (fun _ => 7) =
      Except.ok [104, 105] :=
  encrypt_decrypt_roundtrip [104, 105] "password" (fun _ => 7) (by decide)

/-- C2: decrypting under a different (≥ 8 character) passphrase, or with
a tampered authentication tag, or with a tampered ciphertext, fails with
the authentication error and returns no plaintext bytes. -/
theorem auth_failure_closed (p : Bytes) (k1 k2 : String) (tape : Nat → Nat)
    (r : Enc.EncryptedData) (tag : AuthTag) (ct : Bytes)
    (_h1 : 8 ≤ k1.length) (_h2 : 8 ≤ k2.length) (hne : k1 ≠ k2)
    (henc : Enc.encryptData ⟨some k1⟩ p tape = Except.ok r)
    (htag : tag ≠ r.authTag) (hct : ct ≠ r.encrypted) :
    Enc.decryptData ⟨some k2⟩ r.encrypted r.salt r.iv r.authTag =
      Except.error (Enc.EncError.authenticationFailed
        "Unsupported state or unable to authenticate data") ∧
    Enc.decryptData ⟨some k1⟩ r.encrypted r.salt r.iv tag =
      Except.error (Enc.EncError.authenticationFailed
        "Unsupported state or unable to authenticate data") ∧
    Enc.decryptData ⟨some k1⟩ ct r.salt r.iv r.authTag =
      Except.error (Enc.EncError.authenticationFailed
        "Unsupported state or unable to authenticate data") := by
  unfold Enc.encryptData at henc
  simp only [Except.ok.injEq] at henc
  subst henc
  refine ⟨decryptData_auth_fail _ _ _ _ _ ?_, decryptData_auth_fail _ _ _ _ _ ?_,
    decryptData_auth_fail _ _ _ _ _ ?_⟩
  · simp only [gcmTag, deriveKey, ne_eq, AuthTag.mk.injEq, DerivedKey.mk.injEq]
    intro h
    exact absurd h.1.1 hne
  · exact htag
  · simp only [gcmTag, deriveKey, ne_eq, AuthTag.mk.injEq, DerivedKey.mk.injEq]
    intro h
    exact absurd h.2.2.symm hct


set_option maxRecDepth 8192 in
/-- Witness for C2: concrete distinct passphrases, a concrete tampered
tag and a concrete tampered ciphertext. -/
theorem auth_failure_closed_witness :
    Enc.decryptData ⟨some "password2"⟩ encDataEx.encrypted encDataEx.salt
        encDataEx.iv encDataEx.authTag =
      Except.error (Enc.EncError.authenticationFailed
        "Unsupported state or unable to authenticate data") ∧
    Enc.decryptData ⟨some "password1"⟩ encDataEx.encrypted encDataEx.salt
        encDataEx.iv (gcmTag (deriveKey "password2" []) [] []) =
      Except.error (Enc.EncError.authenticationFailed
        "Unsupported state or unable to authenticate data") ∧
    Enc.decryptData ⟨some "password1"⟩ [9, 9, 9, 9] encDataEx.salt
        encDataEx.iv encDataEx.authTag =
      Except.error (Enc.EncError.authenticationFailed
        "Unsupported state or unable to authenticate data") :=
  auth_failure_closed [1, 2, 3] "password1" "password2" (fun _ => 0) encDataEx
    (gcmTag (deriveKey "password2" []) [] []) [9, 9, 9, 9]
    (by decide) (by decide) (by decide) rfl (by decide) (by decide)

/-- C3: whichever steps of the `/api/transcribe` pipeline succeed or
raise, the transiently-decrypted plaintext copy is gone from storage
when the endpoint returns: on the decryption-failure path it was never
created, and on every other path — transcription failure, transcript
encryption failure, or full success — the `finally` block has unlinked
it. -/
theorem transcribe_cleanup (fs : Py.PyFS) (encryptedPath : String)
    (fl : Py.TranscribeFlags)
    (h : Py.decryptOutputPath encryptedPath ∉ fs.files) :
    Py.decryptOutputPath encryptedPath ∉
      (Py.transcribe_audio fs encryptedPath fl).2.files := by
  rcases fl with ⟨dOk, tOk, eOk⟩
  cases dOk with
  | false => simpa [Py.transcribe_audio, Py.decrypt_file] using h
  | true =>
    cases tOk <;> cases eOk <;>
      simp [Py.transcribe_audio, Py.decrypt_file, Py.pyUnlink, Py.pyWrite,
        List.mem_filter]

/-- Witness for C3 on a one-file store, with the transcription step
failing. -/
theorem transcribe_cleanup_witness :
    Py.decryptOutputPath "a.webm.encrypted" ∉
      (Py.transcribe_audio ⟨["a.webm.encrypted"]⟩ "a.webm.encrypted"
        ⟨true, false, true⟩).2.files :=
  transcribe_cleanup ⟨["a.webm.encrypted"]⟩ "a.webm.encrypted"
    ⟨true, false, true⟩ (by decide)

/-- C4: the salt used by the Python `encrypt_file` path is a
deterministic function of the session id and matter code — it is
independent of whatever randomness the operation has available, so two
encryption operations for the same session always share the same salt,
contradicting the freshness requirement. -/
theorem session_salt_ignores_randomness (sessionId matterCode : String)
    (t1 t2 : Nat → Nat) :
    Py.encrypt_file_salt sessionId matterCode t1 =
      Py.encrypt_file_salt sessionId matterCode t2 := rfl

/-- C5: with a passphrase set, `encryptFile` writes exactly
`[salt(32)][iv(16)][authTag(16)][ciphertext]`, `decryptFile` parses the
artifact back into exactly those four components at offsets 0-31,
32-47, 48-63 and 64-, and decrypting the written artifact returns the
original plaintext. -/
theorem encryptFile_layout (pass : String) (pt : Bytes) (tape : Nat → Nat) :
    Enc.encryptFile ⟨some pass⟩ pt tape = Except.ok (Enc.fileArtifact pass pt tape) ∧
    Enc.decryptFileParse (Enc.fileArtifact pass pt tape) =
      (Enc.freshSalt tape, Enc.freshIV tape, Enc.fileTag pass pt tape,
        Enc.fileCipher pass pt tape) ∧
    Enc.decryptFile ⟨some pass⟩ (Enc.fileArtifact pass pt tape) = Except.ok pt := by
  have hparse : Enc.decryptFileParse (Enc.fileArtifact pass pt tape) =
      (Enc.freshSalt tape, Enc.freshIV tape, Enc.fileTag pass pt tape,
        Enc.fileCipher pass pt tape) := by
    unfold Enc.fileArtifact
    exact decryptFileParse_append _ _ _ _
      (by simp [Enc.freshSalt, Enc.saltLength, length_randomBytes])
      (by simp [Enc.freshIV, Enc.ivLength, length_randomBytes])
      (by simp [Enc.fileTag, length_tagBytes])
  refine ⟨rfl, hparse, ?_⟩
  unfold Enc.decryptFile
  simp only [hparse]
  rw [if_pos (by rw [Enc.fileTag])]
  simp [Enc.fileCipher, gcmDecrypt_gcmEncrypt]

/-- C10: with a passphrase set, the artifact produced by `encryptFile`
is exactly 64 bytes longer than the plaintext (32-byte salt + 16-byte
IV + 16-byte tag, with the GCM ciphertext exactly as long as the
plaintext), so the plaintext length is `artifact length - 64`. -/
theorem encryptFile_length (pass : String) (pt : Bytes) (tape : Nat → Nat) :
    (Enc.encryptFile ⟨some pass⟩ pt tape).map List.length =
      Except.ok (pt.length + 64) := by
  unfold Enc.encryptFile
  simp [Except.map, List.length_append, Enc.freshSalt, Enc.freshIV,
    Enc.saltLength, Enc.ivLength, length_randomBytes, length_tagBytes,
    length_gcmEncrypt]
  omega

/-- C6: calling `startRecording` while the controller is recording or
paused always fails with the state error and leaves the controller
untouched (no capture begins), regardless of the source arguments; and
`startRecording` can only succeed from the idle state — which is how the
single-state-field controller enforces at most one active (recording or
paused) session per instance. -/
theorem startRecording_exclusive :
    (∀ (c : Cap.AudioCapture) (streamOk : Bool) (now : Int),
        c.recordingState = Cap.RecState.recording ∨
          c.recordingState = Cap.RecState.paused →
        Cap.startRecording c streamOk now =
          (c, Except.error (Cap.CapError.stateError
            "Recording already in progress"))) ∧
    (∀ (c : Cap.AudioCapture) (streamOk : Bool) (now r : Int),
        (Cap.startRecording c streamOk now).2 = Except.ok r →
        c.recordingState = Cap.RecState.idle) := by
  constructor
  · intro c streamOk now h
    have hne : c.recordingState ≠ Cap.RecState.idle := by
      rcases h with h | h <;> simp [h]
    unfold Cap.startRecording
    rw [if_pos hne]
  · intro c streamOk now r h
    by_contra hne
    unfold Cap.startRecording at h
    rw [if_pos hne] at h
    simp at h

/-- Witness for C6: a recording controller rejects `start`, and a
successful `start` really came from the idle state. -/
theorem startRecording_exclusive_witness :
    Cap.startRecording capRecordingEx true 5 =
      (capRecordingEx, Except.error (Cap.CapError.stateError
        "Recording already in progress")) ∧
    Cap.AudioCapture.fresh.recordingState = Cap.RecState.idle :=
  ⟨startRecording_exclusive.1 capRecordingEx true 5 (Or.inl rfl),
   startRecording_exclusive.2 Cap.AudioCapture.fresh true 5 5 rfl⟩

/-- C7: while recording, the duration `getStatus` reports is
monotonically non-decreasing in the sampling time (the accumulated
`pausedDuration` is a constant subtracted from the wall clock); while
paused, the reported duration is independent of the sampling time — the
live pause interval `now - lastPauseTime` cancels against the wall
clock, freezing the value. -/
theorem duration_monotone_frozen :
    (∀ (c : Cap.AudioCapture) (st n1 n2 : Int),
        c.recordingState = Cap.RecState.recording →
        c.startTime = some st → n1 ≤ n2 →
        (Cap.getStatus c n1).duration ≤ (Cap.getStatus c n2).duration) ∧
    (∀ (c : Cap.AudioCapture) (st l n1 n2 : Int),
        c.recordingState = Cap.RecState.paused →
        c.startTime = some st → c.lastPauseTime = some l →
        (Cap.getStatus c n1).duration = (Cap.getStatus c n2).duration) := by
  constructor
  · intro c st n1 n2 hs hst h
    simp only [Cap.getStatus, hst, hs]
    simp
    omega
  · intro c st l n1 n2 hs hst hl
    simp only [Cap.getStatus, hst, hs, hl]
    simp
    omega

/-- Witness for C7 at concrete recording and paused controller states
and sample times 5 and 9. -/
theorem duration_monotone_frozen_witness :
    (Cap.getStatus capRecordingEx 5).duration ≤
      (Cap.getStatus capRecordingEx 9).duration ∧
    (Cap.getStatus capPausedEx 5).duration =
      (Cap.getStatus capPausedEx 9).duration :=
  ⟨duration_monotone_frozen.1 capRecordingEx 0 5 9 rfl rfl (by norm_num),
   duration_monotone_frozen.2 capPausedEx 0 3 5 9 rfl rfl rfl⟩

/-- C8 counterexample: moving a `completed` session backward to
`recording` does not fail — `updateSession` applies the patch, changes
the status and stamps `updatedAt`, returning success. -/
theorem updateSession_backward_succeeds :
    SM.updateSession [("s1", completedSessionEx)] "s1"
        (SM.statusPatch "recording") 2 =
      Except.ok ([("s1", { completedSessionEx with
          status := "recording", updatedAt := 2 })],
        { completedSessionEx with status := "recording", updatedAt := 2 }) := by
  rfl

/-- C8 amended: `updateSession` validates nothing about status
transitions — for any stored session it applies the patch (forward or
backward) unconditionally and stamps `updatedAt`; the only failing case
is an unknown session id. -/
theorem updateSession_applies_any_patch (sessions : SM.Sessions)
    (sessionId : String) (updates : SM.SessionPatch) (now : Nat) :
    (∀ s, sessions.lookup sessionId = some s →
        SM.updateSession sessions sessionId updates now =
          Except.ok (sessions.map (fun kv =>
              if kv.1 = sessionId then
                (sessionId, { SM.applyPatch s updates with updatedAt := now })
              else kv),
            { SM.applyPatch s updates with updatedAt := now })) ∧
    (sessions.lookup sessionId = none →
        SM.updateSession sessions sessionId updates now =
          Except.error ("Session not found: " ++ sessionId)) := by
  constructor
  · intro s h
    unfold SM.updateSession
    rw [h]
  · intro h
    unfold SM.updateSession
    rw [h]

/-- Witness for C8 (amended): both branches at concrete inputs — an
existing session takes the backward patch, an unknown id errors. -/
theorem updateSession_applies_any_patch_witness :
    SM.updateSession [("s1", completedSessionEx)] "s1"
        (SM.statusPatch "recording") 2 =
      Except.ok ([("s1", completedSessionEx)].map (fun kv =>
          if kv.1 = "s1" then
            ("s1", { SM.applyPatch completedSessionEx
                (SM.statusPatch "recording") with updatedAt := 2 })
          else kv),
        { SM.applyPatch completedSessionEx
            (SM.statusPatch "recording") with updatedAt := 2 }) ∧
    SM.updateSession [] "missing" (SM.statusPatch "recording") 2 =
      Except.error ("Session not found: " ++ "missing") :=
  ⟨(updateSession_applies_any_patch [("s1", completedSessionEx)] "s1"
      (SM.statusPatch "recording") 2).1 completedSessionEx rfl,
   (updateSession_applies_any_patch [] "missing"
      (SM.statusPatch "recording") 2).2 rfl⟩

/-- C9 counterexample: deleting a session whose status is `recording`
does not fail — `deleteSession` removes the record from the store and
reports success. -/
theorem deleteSession_during_recording_succeeds :
    SM.deleteSession [("r1", recordingSessionEx)] ["rec.webm"] "r1" false =
      Except.ok ([], ["rec.webm"], ⟨true, "r1", false⟩) := by
  rfl

/-- C9 amended: `deleteSession` never inspects the session status — for
any stored session, whatever its status (including `recording`), it
removes the record (and, when asked, the artifact files) and succeeds;
the only failing case is an unknown session id. -/
theorem deleteSession_ignores_status (sessions : SM.Sessions)
    (files : List String) (sessionId : String) (deleteFiles : Bool) :
    (∀ s, sessions.lookup sessionId = some s →
        SM.deleteSession sessions files sessionId deleteFiles =
          Except.ok (sessions.filter (fun kv => kv.1 ≠ sessionId),
            (if deleteFiles then
              SM.unlinkOpt (SM.unlinkOpt files s.audioPath) s.transcriptPath
            else files),
            ⟨true, sessionId, deleteFiles⟩)) ∧
    (sessions.lookup sessionId = none →
        SM.deleteSession sessions files sessionId deleteFiles =
          Except.error ("Session not found: " ++ sessionId)) := by
  constructor
  · intro s h
    unfold SM.deleteSession
    rw [h]
  · intro h
    unfold SM.deleteSession
    rw [h]

/-- Witness for C9 (amended): both branches at concrete inputs — a
`recording` session is deleted, an unknown id errors. -/
theorem deleteSession_ignores_status_witness :
    SM.deleteSession [("r1", recordingSessionEx)] ["rec.webm"] "r1" false =
      Except.ok ([("r1", recordingSessionEx)].filter (fun kv => kv.1 ≠ "r1"),
        (if false then
          SM.unlinkOpt (SM.unlinkOpt ["rec.webm"] recordingSessionEx.audioPath)
            recordingSessionEx.transcriptPath
        else ["rec.webm"]),
        ⟨true, "r1", false⟩) ∧
    SM.deleteSession [] [] "missing" true =
      Except.error ("Session not found: " ++ "missing") :=
  ⟨(deleteSession_ignores_status [("r1", recordingSessionEx)] ["rec.webm"]
      "r1" false).1 recordingSessionEx rfl,
   (deleteSession_ignores_status [] [] "missing" true).2 rfl⟩

end VaultScribe
